import Mathlib

/-!
# Verification of the gads-cron campaign reporting core

Shallow embedding of the aggregation / derivation engine of `getCampaignData`
(the duplicated core in the two report modules), together with the
`formatEndDate` and `formatStatus` helpers and the per-campaign
fetch-failure fallback.

Modelling conventions:
* Dates travel as ISO `YYYY-MM-DD` strings, exactly as in the source.
  `new Date("YYYY-MM-DD")` is modelled as UTC-midnight milliseconds via the
  standard civil-calendar day count; `new Date()` (the wall clock) is an
  explicit `now : Int` (milliseconds) parameter, and
  `new Date().getFullYear()` an explicit `currentYear : Int` parameter.
* JS numbers are modelled exactly: `parseInt` results as `Option Int`
  (`none` = `NaN`), `parseFloat` / `Number` results as `Option ℚ`.
  The numeric grammars cover sign, digits and a decimal point; exotic JS
  forms (hex, exponents, `Infinity`) are outside the model.
* A possibly-absent field is `Option String`; `none` models `undefined`
  (for which `parseInt`/`parseFloat` yield `NaN`).
* `x || 0` applied to a parse result maps `NaN` to `0` and keeps every
  other value (`0` maps to `0` either way), i.e. `Option.getD · 0`.
-/

namespace GadsCron

/-- Leading decimal digits of a character list, as a natural number, or
`none` when the list does not start with a digit. -/
def parseDigits (l : List Char) : Option Nat :=
  let d := l.takeWhile Char.isDigit
  if d.isEmpty then none
  else some (d.foldl (fun acc c => acc * 10 + (c.toNat - 48)) 0)

/-- JS `parseInt(s)` (radix 10): skip leading whitespace, optional sign,
then the longest prefix of digits; `none` models `NaN`. -/
def jsParseIntList (l : List Char) : Option Int :=
  let l := l.dropWhile (fun c => c = ' ')
  match l with
  | '-' :: rest => (parseDigits rest).map (fun n => -(n : Int))
  | '+' :: rest => (parseDigits rest).map (fun n => (n : Int))
  | _ => (parseDigits l).map (fun n => (n : Int))

/-- JS `parseInt` on a string. -/
def jsParseInt (s : String) : Option Int :=
  jsParseIntList s.toList

/-- Value of an (integer-part, fraction-digit-list) pair as a rational. -/
def fracValue (ip : Nat) (frac : List Char) : ℚ :=
  (ip : ℚ) + (frac.foldl (fun acc c => acc * 10 + (c.toNat - 48)) 0 : ℚ) /
    ((10 : ℚ) ^ frac.length)

/-- Unsigned decimal literal `digits [. digits]` read from the front of the
list: returns the value and the unread remainder, requiring at least one
digit overall (so `.5` parses and `.` does not). -/
def parseUnsignedDec (l : List Char) : Option (ℚ × List Char) :=
  let d1 := l.takeWhile Char.isDigit
  let r1 := l.drop d1.length
  match r1 with
  | '.' :: r2 =>
      let d2 := r2.takeWhile Char.isDigit
      if d1.isEmpty ∧ d2.isEmpty then none
      else
        some (fracValue (d1.foldl (fun acc c => acc * 10 + (c.toNat - 48)) 0) d2,
              r2.drop d2.length)
  | _ =>
      if d1.isEmpty then none
      else some ((d1.foldl (fun acc c => acc * 10 + (c.toNat - 48)) 0 : Nat), r1)

/-- Signed decimal literal read from the front of the list. -/
def parseSignedDec (l : List Char) : Option (ℚ × List Char) :=
  match l with
  | '-' :: rest => (parseUnsignedDec rest).map (fun p => (-p.1, p.2))
  | '+' :: rest => parseUnsignedDec rest
  | _ => parseUnsignedDec l

/-- JS `parseFloat(s)`: skip leading whitespace, then the longest valid
signed decimal prefix; `none` models `NaN`. -/
def jsParseFloat (s : String) : Option ℚ :=
  (parseSignedDec (s.toList.dropWhile (fun c => c = ' '))).map Prod.fst

/-- JS `Number(s)` coercion (as used by `isNaN(status)`): the whole trimmed
string must be a decimal literal; the empty (or all-whitespace) string
coerces to `0`; `none` models `NaN`. -/
def jsStringToNumber (s : String) : Option ℚ :=
  let t := ((s.toList.dropWhile (fun c => c = ' ')).reverse.dropWhile
    (fun c => c = ' ')).reverse
  if t.isEmpty then some 0
  else match parseSignedDec t with
    | some (v, []) => some v
    | _ => none

/-- Days since 1970-01-01 of a civil date (Gregorian, proleptic); the
arithmetic JS `Date` performs for `YYYY-MM-DD` strings. -/
def daysFromCivil (y m d : Int) : Int :=
  let y' := if m ≤ 2 then y - 1 else y
  let era := (if 0 ≤ y' then y' else y' - 399).fdiv 400
  let yoe := y' - era * 400
  let mp := if 2 < m then m - 3 else m + 9
  let doy := (153 * mp + 2).fdiv 5 + d - 1
  let doe := yoe * 365 + yoe.fdiv 4 - yoe.fdiv 100 + doy
  era * 146097 + doe - 719468

/-- `'sep'.split` on a character list (the list-level semantics of JS
`String.prototype.split` with a single-character separator). -/
def splitOnChar (sep : Char) : List Char → List (List Char)
  | [] => [[]]
  | c :: rest =>
      if c = sep then [] :: splitOnChar sep rest
      else
        match splitOnChar sep rest with
        | h :: t => (c :: h) :: t
        | [] => [[c]]

/-- `new Date("YYYY-MM-DD").getTime()`: UTC midnight of the civil date, in
milliseconds. Strings that are not three dash-separated components are
outside the model (JS would give `NaN`) and map to `0`. -/
def dateMs (s : String) : Int :=
  match (splitOnChar '-' s.toList).map (fun p => ((parseDigits p).getD 0 : Int)) with
  | [y, m, d] => daysFromCivil y m d * 86400000
  | _ => 0

/-- `Math.ceil(a / b)` for integer `a` and positive integer `b`. -/
def ceilDiv (a b : Int) : Int :=
  -((-a).fdiv b)

/-- A campaign status as delivered by the API: a numeric enum code or a
string (canonical name or numeric string). -/
inductive JsStatus where
  | num (n : Int)
  | str (s : String)
deriving DecidableEq

/-- String interpolation `${status}` of a status value. -/
def JsStatus.display : JsStatus → String
  | .num n => toString n
  | .str s => s

/-- `parseInt(status)`: a number is stringified first (an integer code
round-trips); a string goes through the `parseInt` grammar. -/
def jsParseIntStatus : JsStatus → Option Int
  | .num n => some n
  | .str s => jsParseInt s

/-- `isNaN(status)` (after `Number` coercion): `false` for every number,
and for a string exactly when `Number(s)` is `NaN`. -/
def jsIsNaNStatus : JsStatus → Bool
  | .num _ => false
  | .str s => (jsStringToNumber s).isNone

/-- One daily metric row from the per-campaign metrics query. Each metric
field is possibly absent (`none` = `undefined`) and otherwise carries the
raw value the parse functions are applied to. -/
structure MetricRowRaw where
  date : String
  cost_micros : Option String
  conversions : Option String
  conversions_value : Option String
  impressions : Option String
  clicks : Option String
deriving DecidableEq

/-- `parseInt(field) || 0`: `NaN` (absent or unparsable) becomes `0`. -/
def jsIntField (o : Option String) : Int :=
  ((o.bind jsParseInt).getD 0)

/-- `parseFloat(field) || 0`: `NaN` (absent or unparsable) becomes `0`. -/
def jsFloatField (o : Option String) : ℚ :=
  ((o.bind jsParseFloat).getD 0)

/-- Parsed `cost_micros` of a row (`parseInt(row.metrics.cost_micros) || 0`). -/
def rowCost (r : MetricRowRaw) : Int := jsIntField r.cost_micros

/-- Parsed `conversions` of a row. -/
def rowConversions (r : MetricRowRaw) : ℚ := jsFloatField r.conversions

/-- Parsed `conversions_value` of a row. -/
def rowConversionsValue (r : MetricRowRaw) : ℚ := jsFloatField r.conversions_value

/-- Parsed `impressions` of a row. -/
def rowImpressions (r : MetricRowRaw) : Int := jsIntField r.impressions

/-- Parsed `clicks` of a row. -/
def rowClicks (r : MetricRowRaw) : Int := jsIntField r.clicks

/-- A row counts as active when `cost > 0 || impressions > 0 || clicks > 0`. -/
def rowActive (r : MetricRowRaw) : Bool :=
  0 < rowCost r ∨ 0 < rowImpressions r ∨ 0 < rowClicks r

/-- The mutable accumulator of the `metricsResult.forEach` loop. -/
structure AggState where
  totalCost : Int
  totalConversions : ℚ
  totalConversionsValue : ℚ
  totalImpressions : Int
  totalClicks : Int
  lastActiveDate : String
deriving DecidableEq

/-- Initial accumulator: all totals `0`, `lastActiveDate = startDate`. -/
def initState (startDate : String) : AggState :=
  ⟨0, 0, 0, 0, 0, startDate⟩

/-- Body of the `forEach` over daily rows: parse the five fields, update
`lastActiveDate` on activity, add to the totals. -/
def aggStep (st : AggState) (r : MetricRowRaw) : AggState :=
  { totalCost := st.totalCost + rowCost r
    totalConversions := st.totalConversions + rowConversions r
    totalConversionsValue := st.totalConversionsValue + rowConversionsValue r
    totalImpressions := st.totalImpressions + rowImpressions r
    totalClicks := st.totalClicks + rowClicks r
    lastActiveDate := if rowActive r then r.date else st.lastActiveDate }

/-- The whole `forEach` over the fetched daily rows, in list order. -/
def aggregate (startDate : String) (rows : List MetricRowRaw) : AggState :=
  rows.foldl aggStep (initState startDate)

/-- `activeDays` of the computed path:
`Math.ceil((endDateObj - startDateObj) / 86400000) + 1` with
`endDateObj = isPaused ? new Date(lastActiveDate) : new Date()`. -/
def activeDaysCalc (now : Int) (startDate : String) (isPaused : Bool)
    (lastActiveDate : String) : Int :=
  let startMs := dateMs startDate
  let endMs := if isPaused then dateMs lastActiveDate else now
  ceilDiv (endMs - startMs) 86400000 + 1

/-- One campaign row of the campaign-info query. -/
structure CampaignRow where
  id : Int
  name : String
  start_date : String
  end_date : Option String
  status : JsStatus
deriving DecidableEq

/-- The per-campaign record the loop stores into `campaignMap`
(`{...campaignInfo, lastActiveDate, activeDays, totals}`). -/
structure Aggregated where
  id : Int
  name : String
  startDate : String
  endDate : Option String
  status : JsStatus
  isPaused : Bool
  lastActiveDate : String
  activeDays : Int
  totalCost : Int
  totalConversions : ℚ
  totalConversionsValue : ℚ
  totalImpressions : Int
  totalClicks : Int
deriving DecidableEq

/-- `campaignInfo.isPaused = parseInt(campaignRow.campaign.status) === 3`. -/
def isPausedOf (st : JsStatus) : Bool :=
  jsParseIntStatus st = some 3

/-- Body of the per-campaign loop: on a successful metrics fetch, run the
aggregation and the active-duration calculation; on a fetch error, the
`catch` block substitutes all-zero totals, `lastActiveDate = startDate`
and `activeDays = 1`. -/
def processCampaign (now : Int) (c : CampaignRow)
    (fetch : Except Unit (List MetricRowRaw)) : Aggregated :=
  let p := isPausedOf c.status
  match fetch with
  | .ok rows =>
      let st := aggregate c.start_date rows
      { id := c.id, name := c.name, startDate := c.start_date
        endDate := c.end_date, status := c.status, isPaused := p
        lastActiveDate := st.lastActiveDate
        activeDays := activeDaysCalc now c.start_date p st.lastActiveDate
        totalCost := st.totalCost
        totalConversions := st.totalConversions
        totalConversionsValue := st.totalConversionsValue
        totalImpressions := st.totalImpressions
        totalClicks := st.totalClicks }
  | .error _ =>
      { id := c.id, name := c.name, startDate := c.start_date
        endDate := c.end_date, status := c.status, isPaused := p
        lastActiveDate := c.start_date
        activeDays := 1
        totalCost := 0, totalConversions := 0, totalConversionsValue := 0
        totalImpressions := 0, totalClicks := 0 }

/-- `Map.prototype.set`: replace the value of an existing key in place,
otherwise append at the end (JS `Map` keeps insertion order). -/
def mapSet (m : List (Int × Aggregated)) (k : Int) (v : Aggregated) :
    List (Int × Aggregated) :=
  if m.any (fun p => p.1 = k) then
    m.map (fun p => if p.1 = k then (k, v) else p)
  else m ++ [(k, v)]

/-- The `for (const campaignRow of campaignInfoResult)` loop: each campaign
is paired with the outcome of its metrics fetch. -/
def runBatch (now : Int) (m : List (Int × Aggregated)) :
    List (CampaignRow × Except Unit (List MetricRowRaw)) →
    List (Int × Aggregated)
  | [] => m
  | (c, fetch) :: rest =>
      runBatch now (mapSet m c.id (processCampaign now c fetch)) rest

/-- `Array.from(campaignMap.values())` after the loop. -/
def getCampaignDataAgg (now : Int)
    (batch : List (CampaignRow × Except Unit (List MetricRowRaw))) :
    List Aggregated :=
  (runBatch now [] batch).map Prod.snd

/-- JS falsiness of the `endDate` field: `undefined` or the empty string. -/
def endDateFalsy : Option String → Bool
  | none => true
  | some s => s.isEmpty

/-- `parseInt(endDate.split('-')[0])`: the year component the sentinel
check reads — `split('-')[0]` is the prefix before the first dash
(`none` = `NaN`, and `NaN > x` is false). -/
def endDateYear (s : String) : Option Int :=
  jsParseIntList (s.toList.takeWhile (fun c => c ≠ '-'))

/-- The `formatEndDate` helper: paused campaigns render their pause date;
a falsy end date and the far-future sentinel render `No end date`;
otherwise the literal end date. -/
def formatEndDate (endDate : Option String) (isPaused : Bool)
    (lastActiveDate : String) (currentYear : Int) : String :=
  if isPaused then "Paused on " ++ lastActiveDate
  else if endDateFalsy endDate then "No end date"
  else
    let ed := endDate.getD ""
    match endDateYear ed with
    | some y => if currentYear + 10 < y then "No end date" else ed
    | none => ed

/-- The numeric `switch` of `formatStatus`: `parseInt` result against the
fixed code table, `default` rendering `Unknown (<raw>)`. A `switch` on
`NaN` (`none`) also falls to `default`. -/
def numericStatusText (pi : Option Int) (raw : String) : String :=
  match pi with
  | some 2 => "Active"
  | some 3 => "Paused"
  | some 4 => "Removed"
  | some 5 => "Draft"
  | some 6 => "Ended"
  | _ => "Unknown (" ++ raw ++ ")"

/-- The string `switch` of `formatStatus`: canonical names, `default`
keeping the raw status text. -/
def stringStatusText (s : String) : String :=
  if s = "ENABLED" then "Active"
  else if s = "PAUSED" then "Paused"
  else if s = "REMOVED" then "Removed"
  else if s = "DRAFT" then "Draft"
  else if s = "ENDED" then "Ended"
  else if s = "UNKNOWN" then "Unknown"
  else s

/-- The `formatStatus` helper: numbers and numeric strings
(`typeof status === 'number' || !isNaN(status)`) go through the numeric
table on `parseInt(status)`; other strings through the canonical-name
table; paused campaigns get the duration suffix. -/
def formatStatus (status : JsStatus) (isPaused : Bool) (activeDays : Int) :
    String :=
  let statusText :=
    if ¬ jsIsNaNStatus status then
      numericStatusText (jsParseIntStatus status) status.display
    else
      match status with
      | .num n => numericStatusText (some n) (toString n)
      | .str s => stringStatusText s
  if isPaused then
    statusText ++ " (Ran for " ++ toString activeDays ++ " days)"
  else statusText

/-- The two characters of a two-digit zero-padded decimal. -/
def pad2 (k : Nat) : String :=
  String.mk [Nat.digitChar (k / 10 % 10), Nat.digitChar (k % 10)]

/-- `x.toFixed(2)`: sign, then the integer nearest `|x| * 100` (ties away
from zero, i.e. toward the larger magnitude, per the ECMAScript
`toFixed` definition on exact values), split as `int.dd`. -/
def toFixed2 (x : ℚ) : String :=
  let sign := if x < 0 then "-" else ""
  let n : Nat := (Int.floor (|x| * 100 + 1 / 2)).toNat
  sign ++ toString (n / 100) ++ "." ++ pad2 (n % 100)

/-- `costInCurrency = campaign.totalCost / 1000000` (exact division in the
rational model of JS numbers). -/
def costInCurrency (c : Aggregated) : ℚ :=
  (c.totalCost : ℚ) / 1000000

/-- The `averageCpc` number computed before rendering. -/
def averageCpcValue (c : Aggregated) : ℚ :=
  if 0 < c.totalClicks then costInCurrency c / (c.totalClicks : ℚ) else 0

/-- The `dailyAvgCost` number computed before rendering. -/
def dailyAvgCostValue (c : Aggregated) : ℚ :=
  if 0 < c.activeDays then costInCurrency c / (c.activeDays : ℚ) else 0

/-- The `(totalClicks / totalImpressions) * 100` number inside the `ctr`
ternary (only rendered when `totalImpressions > 0`). -/
def ctrValue (c : Aggregated) : ℚ :=
  if 0 < c.totalImpressions then
    ((c.totalClicks : ℚ) / (c.totalImpressions : ℚ)) * 100
  else 0

/-- One record of the returned `formattedCampaigns` array. -/
structure Formatted where
  campaignId : Int
  campaignName : String
  startDate : String
  endDate : String
  status : String
  activeDuration : String
  totalCost : String
  dailyAvgCost : String
  totalConversions : String
  totalConversionsValue : String
  totalImpressions : Int
  totalClicks : Int
  ctr : String
  averageCpc : String
  costPerDay : String
  isPaused : Bool
  lastActiveDate : String
deriving DecidableEq

/-- The `campaigns.map(campaign => ...)` callback producing the final
display record. -/
def formatCampaign (currentYear : Int) (c : Aggregated) : Formatted :=
  { campaignId := c.id
    campaignName := c.name
    startDate := c.startDate
    endDate := formatEndDate c.endDate c.isPaused c.lastActiveDate currentYear
    status := formatStatus c.status c.isPaused c.activeDays
    activeDuration := toString c.activeDays ++ " days"
    totalCost := toFixed2 (costInCurrency c)
    dailyAvgCost := toFixed2 (dailyAvgCostValue c)
    totalConversions := toFixed2 c.totalConversions
    totalConversionsValue := toFixed2 c.totalConversionsValue
    totalImpressions := c.totalImpressions
    totalClicks := c.totalClicks
    ctr := if 0 < c.totalImpressions then toFixed2 (ctrValue c) ++ "%" else "0%"
    averageCpc := toFixed2 (averageCpcValue c)
    costPerDay := toFixed2 (dailyAvgCostValue c)
    isPaused := c.isPaused
    lastActiveDate := c.lastActiveDate }

/-- The exposed `getCampaignData`, from the campaign-info result (each
campaign paired with its metrics-fetch outcome) to the formatted report
array. `now` is the wall clock in milliseconds and `currentYear` the
wall-clock year, both read from `new Date()` in the source. -/
def getCampaignData (now : Int) (currentYear : Int)
    (batch : List (CampaignRow × Except Unit (List MetricRowRaw))) :
    List Formatted :=
  (getCampaignDataAgg now batch).map (formatCampaign currentYear)

/-! ## Date comparison (for stating the spec's `max` over ISO dates) -/

/-- Lexicographic order on character lists; on `YYYY-MM-DD` strings this is
chronological order. -/
def lexLe : List Char → List Char → Bool
  | [], _ => true
  | _ :: _, [] => false
  | a :: as, b :: bs => if a = b then lexLe as bs else decide (a < b)

/-- `a ≤ b` on ISO date strings. -/
def dateLeB (a b : String) : Bool := lexLe a.toList b.toList

/-- The later of two ISO date strings. -/
def dateMax (a b : String) : String := if dateLeB a b then b else a

/-! ## Aggregation decomposition lemmas -/

/-- The `lastActiveDate` assignment loop in isolation. -/
def lastActiveFold (acc : String) : List MetricRowRaw → String
  | [] => acc
  | r :: t => lastActiveFold (if rowActive r then r.date else acc) t

theorem foldl_aggStep_totalCost (st : AggState) (l : List MetricRowRaw) :
    (l.foldl aggStep st).totalCost = st.totalCost + (l.map rowCost).sum := by
  induction l generalizing st with
  | nil => simp
  | cons r t ih => simp [aggStep, ih, add_assoc]

theorem foldl_aggStep_totalConversions (st : AggState) (l : List MetricRowRaw) :
    (l.foldl aggStep st).totalConversions =
      st.totalConversions + (l.map rowConversions).sum := by
  induction l generalizing st with
  | nil => simp
  | cons r t ih => simp [aggStep, ih, add_assoc]

theorem foldl_aggStep_totalConversionsValue (st : AggState)
    (l : List MetricRowRaw) :
    (l.foldl aggStep st).totalConversionsValue =
      st.totalConversionsValue + (l.map rowConversionsValue).sum := by
  induction l generalizing st with
  | nil => simp
  | cons r t ih => simp [aggStep, ih, add_assoc]

theorem foldl_aggStep_totalImpressions (st : AggState) (l : List MetricRowRaw) :
    (l.foldl aggStep st).totalImpressions =
      st.totalImpressions + (l.map rowImpressions).sum := by
  induction l generalizing st with
  | nil => simp
  | cons r t ih => simp [aggStep, ih, add_assoc]

theorem foldl_aggStep_totalClicks (st : AggState) (l : List MetricRowRaw) :
    (l.foldl aggStep st).totalClicks =
      st.totalClicks + (l.map rowClicks).sum := by
  induction l generalizing st with
  | nil => simp
  | cons r t ih => simp [aggStep, ih, add_assoc]

theorem foldl_aggStep_lastActive (st : AggState) (l : List MetricRowRaw) :
    (l.foldl aggStep st).lastActiveDate = lastActiveFold st.lastActiveDate l := by
  induction l generalizing st with
  | nil => rfl
  | cons r t ih => simp [aggStep, ih, lastActiveFold]

/-- When the rows are sorted ascending by date and every date is at or
after the accumulator, the assignment loop computes the maximum of the
accumulator and the active rows' dates. -/
theorem lastActiveFold_eq_max (acc : String) (l : List MetricRowRaw)
    (hacc : ∀ r ∈ l, dateLeB acc r.date = true)
    (hsort : l.Pairwise (fun a b => dateLeB a.date b.date = true)) :
    lastActiveFold acc l =
      ((l.filter rowActive).map (fun r => r.date)).foldl dateMax acc := by
  induction l generalizing acc with
  | nil => rfl
  | cons r t ih =>
      rcases List.pairwise_cons.mp hsort with ⟨h1, h2⟩
      by_cases ha : rowActive r
      · have hmax : dateMax acc r.date = r.date := by
          unfold dateMax
          rw [hacc r (List.mem_cons_self r t)]
          simp
        simp only [lastActiveFold, List.filter_cons, ha, if_pos, List.map_cons,
          List.foldl_cons, hmax]
        exact ih r.date (fun b hb => h1 b hb) h2
      · have ha' : rowActive r = false := by simpa using ha
        simp only [lastActiveFold, List.filter_cons, ha', List.map_cons]
        simp only [Bool.false_eq_true, if_neg, ite_false]
        exact ih acc (fun b hb => hacc b (List.mem_cons_of_mem r hb)) h2

theorem aggregate_totalCost (s : String) (l : List MetricRowRaw) :
    (aggregate s l).totalCost = (l.map rowCost).sum := by
  simpa [aggregate, initState] using foldl_aggStep_totalCost (initState s) l

theorem aggregate_totalConversions (s : String) (l : List MetricRowRaw) :
    (aggregate s l).totalConversions = (l.map rowConversions).sum := by
  simpa [aggregate, initState] using
    foldl_aggStep_totalConversions (initState s) l

theorem aggregate_totalConversionsValue (s : String) (l : List MetricRowRaw) :
    (aggregate s l).totalConversionsValue = (l.map rowConversionsValue).sum := by
  simpa [aggregate, initState] using
    foldl_aggStep_totalConversionsValue (initState s) l

theorem aggregate_totalImpressions (s : String) (l : List MetricRowRaw) :
    (aggregate s l).totalImpressions = (l.map rowImpressions).sum := by
  simpa [aggregate, initState] using
    foldl_aggStep_totalImpressions (initState s) l

theorem aggregate_totalClicks (s : String) (l : List MetricRowRaw) :
    (aggregate s l).totalClicks = (l.map rowClicks).sum := by
  simpa [aggregate, initState] using foldl_aggStep_totalClicks (initState s) l

theorem aggregate_lastActive (s : String) (l : List MetricRowRaw) :
    (aggregate s l).lastActiveDate = lastActiveFold s l := by
  simpa [aggregate, initState] using foldl_aggStep_lastActive (initState s) l

/-- A fully-active sample row dated 2024-01-01. -/
def rowJan01 : MetricRowRaw :=
  ⟨"2024-01-01", some "100", none, none, some "5", some "1"⟩

/-- A fully-active sample row dated 2024-01-02. -/
def rowJan02 : MetricRowRaw :=
  ⟨"2024-01-02", some "100", none, none, some "5", some "1"⟩

/-- **C1, counterexample.** The claim is false as stated: the two
orderings of the same two active rows are permutations of one another,
yet the `forEach` assignment gives `lastActiveDate = "2024-01-01"` for
one and `"2024-01-02"` for the other — so `lastActiveDate` is not
permutation-invariant, and in the first ordering the active row dated
2024-01-01 regresses `lastActiveDate` below the maximum 2024-01-02. -/
theorem c1_lastActiveDate_not_order_independent :
    (aggregate "2024-01-01" [rowJan02, rowJan01]).lastActiveDate
      = "2024-01-01" ∧
    (aggregate "2024-01-01" [rowJan01, rowJan02]).lastActiveDate
      = "2024-01-02" ∧
    ("2024-01-01" : String) ≠ "2024-01-02" := by
  refine ⟨by decide, by decide, by decide⟩

/-- **C1, amended.** The five totals are order-independent: any
permutation of the daily rows yields identical
`totalCost`, `totalConversions`, `totalConversionsValue`,
`totalImpressions` and `totalClicks`. `lastActiveDate`, however, is the
date of the *last row in list order* with activity; only when the rows
are sorted ascending by date with every date at or after `startDate`
(as the metrics query orders and filters them) does it equal the maximum
of `startDate` and the dates of all rows with activity. -/
theorem c1_totals_order_independent_lastActive_max (s : String)
    (l l' : List MetricRowRaw) :
    (l.Perm l' →
      (aggregate s l).totalCost = (aggregate s l').totalCost ∧
      (aggregate s l).totalConversions = (aggregate s l').totalConversions ∧
      (aggregate s l).totalConversionsValue
        = (aggregate s l').totalConversionsValue ∧
      (aggregate s l).totalImpressions = (aggregate s l').totalImpressions ∧
      (aggregate s l).totalClicks = (aggregate s l').totalClicks) ∧
    ((∀ r ∈ l, dateLeB s r.date = true) →
      l.Pairwise (fun a b => dateLeB a.date b.date = true) →
      (aggregate s l).lastActiveDate =
        ((l.filter rowActive).map (fun r => r.date)).foldl dateMax s) := by
  constructor
  · intro hp
    refine ⟨?_, ?_, ?_, ?_, ?_⟩
    · rw [aggregate_totalCost, aggregate_totalCost]
      exact (hp.map rowCost).sum_eq
    · rw [aggregate_totalConversions, aggregate_totalConversions]
      exact (hp.map rowConversions).sum_eq
    · rw [aggregate_totalConversionsValue, aggregate_totalConversionsValue]
      exact (hp.map rowConversionsValue).sum_eq
    · rw [aggregate_totalImpressions, aggregate_totalImpressions]
      exact (hp.map rowImpressions).sum_eq
    · rw [aggregate_totalClicks, aggregate_totalClicks]
      exact (hp.map rowClicks).sum_eq
  · intro h1 h2
    rw [aggregate_lastActive]
    exact lastActiveFold_eq_max s l h1 h2

/-- **C1, witness.** The amended theorem applied to the sorted two-row
sample and its reversal. -/
theorem c1_totals_order_independent_lastActive_max_witness :
    ([rowJan01, rowJan02].Perm [rowJan02, rowJan01] ∧
      (∀ r ∈ [rowJan01, rowJan02], dateLeB "2024-01-01" r.date = true) ∧
      [rowJan01, rowJan02].Pairwise
        (fun a b => dateLeB a.date b.date = true)) ∧
    (aggregate "2024-01-01" [rowJan01, rowJan02]).totalClicks
      = (aggregate "2024-01-01" [rowJan02, rowJan01]).totalClicks ∧
    (aggregate "2024-01-01" [rowJan01, rowJan02]).lastActiveDate =
      ((([rowJan01, rowJan02].filter rowActive).map (fun r => r.date)).foldl
        dateMax "2024-01-01") :=
  ⟨⟨by decide, by decide, by decide⟩,
    ((c1_totals_order_independent_lastActive_max "2024-01-01"
      [rowJan01, rowJan02] [rowJan02, rowJan01]).1 (by decide)).2.2.2.2,
    (c1_totals_order_independent_lastActive_max "2024-01-01"
      [rowJan01, rowJan02] [rowJan02, rowJan01]).2 (by decide) (by decide)⟩

/-- **C2** (code bug): the computed path applies no clamp. A non-paused
campaign whose `startDate` lies nine days after the evaluation clock
(`new Date()` at UTC midnight of 2025-10-11) gets
`activeDays = Math.ceil(-9) + 1 = -8`, violating `activeDays ≥ 1`; the
claimed clamp to `1` does not exist in this path (only the fetch-error
fallback hard-codes `1`). -/
theorem c2_activeDays_not_clamped :
    (processCampaign (dateMs "2025-10-11")
      ⟨1, "A", "2025-10-20", none, JsStatus.num 2⟩ (.ok [])).activeDays
      = -8 ∧
    ¬ (1 : Int) ≤ -8 := by
  exact ⟨by decide, by decide⟩

/-- **C4, counterexample.** A campaign fetched with the canonical status
string `"PAUSED"` gets `isPaused = false`, because
`parseInt("PAUSED")` is `NaN`, not `3` — the claim requires `true`. -/
theorem c4_paused_string_not_detected :
    (processCampaign 0 ⟨1, "A", "2024-01-01", none, JsStatus.str "PAUSED"⟩
      (.error ())).isPaused = false := by
  decide

/-- **C4, amended.** `isPaused` is true exactly when `parseInt(status)`
yields `3`: the numeric code `3` and the numeric string `"3"` qualify,
but the canonical string `"PAUSED"` does not (its `parseInt` is `NaN`). -/
theorem c4_isPaused_iff_parseInt_three (now : Int) (c : CampaignRow)
    (f : Except Unit (List MetricRowRaw)) (n : Int) :
    ((processCampaign now c f).isPaused = true ↔
      jsParseIntStatus c.status = some 3) ∧
    (isPausedOf (JsStatus.num n) = true ↔ n = 3) ∧
    isPausedOf (JsStatus.str "3") = true ∧
    isPausedOf (JsStatus.str "PAUSED") = false := by
  refine ⟨?_, ?_, by decide, by decide⟩
  · have h : (processCampaign now c f).isPaused = isPausedOf c.status := by
      cases f <;> rfl
    rw [h]
    simp [isPausedOf]
  · simp [isPausedOf, jsParseIntStatus]

/-- **C5, counterexample.** A non-numeric status string unmapped by the
secondary table is rendered as the raw string itself (`default:
statusText = status`), not as `Unknown (<raw value>)` as claimed. -/
theorem c5_unmapped_string_renders_raw :
    formatStatus (JsStatus.str "FOO") false 5 = "FOO" ∧
    ("FOO" : String) ≠ "Unknown (FOO)" := by
  exact ⟨by decide, by decide⟩

/-- **C5, amended.** The status label: a number (and any string whose
`Number` coercion is not `NaN`) goes through `parseInt` and the numeric
table `2→Active, 3→Paused, 4→Removed, 5→Draft, 6→Ended`, with unmapped
codes rendering `Unknown (<raw>)`; a non-numeric string goes through the
canonical-name table, with unmapped strings rendering as the *raw string
itself* (not `Unknown (<raw>)`); when `isPaused`, the suffix
` (Ran for {activeDays} days)` is appended. -/
theorem c5_formatStatus_table (ip : Bool) (ad : Int) :
    (∀ n : Int, formatStatus (JsStatus.num n) ip ad =
      numericStatusText (some n) (toString n) ++
        (if ip then " (Ran for " ++ toString ad ++ " days)" else "")) ∧
    (numericStatusText (some 2) "2" = "Active" ∧
      numericStatusText (some 3) "3" = "Paused" ∧
      numericStatusText (some 4) "4" = "Removed" ∧
      numericStatusText (some 5) "5" = "Draft" ∧
      numericStatusText (some 6) "6" = "Ended") ∧
    (∀ n : Int, ∀ r : String, n ≠ 2 → n ≠ 3 → n ≠ 4 → n ≠ 5 → n ≠ 6 →
      numericStatusText (some n) r = "Unknown (" ++ r ++ ")") ∧
    (∀ s : String, (jsStringToNumber s).isSome = true →
      formatStatus (JsStatus.str s) ip ad =
        numericStatusText (jsParseInt s) s ++
          (if ip then " (Ran for " ++ toString ad ++ " days)" else "")) ∧
    (∀ s : String, (jsStringToNumber s).isSome = false →
      formatStatus (JsStatus.str s) ip ad =
        stringStatusText s ++
          (if ip then " (Ran for " ++ toString ad ++ " days)" else "")) ∧
    (stringStatusText "ENABLED" = "Active" ∧
      stringStatusText "PAUSED" = "Paused" ∧
      stringStatusText "REMOVED" = "Removed" ∧
      stringStatusText "DRAFT" = "Draft" ∧
      stringStatusText "ENDED" = "Ended" ∧
      stringStatusText "UNKNOWN" = "Unknown") ∧
    (∀ s : String, s ≠ "ENABLED" → s ≠ "PAUSED" → s ≠ "REMOVED" →
      s ≠ "DRAFT" → s ≠ "ENDED" → s ≠ "UNKNOWN" →
      stringStatusText s = s) ∧
    formatStatus (JsStatus.str "3") ip ad =
      "Paused" ++ (if ip then " (Ran for " ++ toString ad ++ " days)" else "") := by
  have hnum : ∀ n : Int, formatStatus (JsStatus.num n) ip ad =
      numericStatusText (some n) (toString n) ++
        (if ip then " (Ran for " ++ toString ad ++ " days)" else "") := by
    intro n
    cases ip <;>
      simp [formatStatus, jsIsNaNStatus, jsParseIntStatus, JsStatus.display,
        String.append_assoc]
  have hmisc : ∀ n : Int, ∀ r : String, n ≠ 2 → n ≠ 3 → n ≠ 4 → n ≠ 5 →
      n ≠ 6 → numericStatusText (some n) r = "Unknown (" ++ r ++ ")" := by
    intro n r h2 h3 h4 h5 h6
    unfold numericStatusText
    split <;> simp_all
  have hnumstr : ∀ s : String, (jsStringToNumber s).isSome = true →
      formatStatus (JsStatus.str s) ip ad =
        numericStatusText (jsParseInt s) s ++
          (if ip then " (Ran for " ++ toString ad ++ " days)" else "") := by
    intro s hs
    have h : jsIsNaNStatus (JsStatus.str s) = false := by
      show (jsStringToNumber s).isNone = false
      cases hj : jsStringToNumber s with
      | none => rw [hj] at hs; simp at hs
      | some v => rfl
    cases ip <;>
      simp [formatStatus, h, jsParseIntStatus, JsStatus.display,
        String.append_assoc]
  have hstr : ∀ s : String, (jsStringToNumber s).isSome = false →
      formatStatus (JsStatus.str s) ip ad =
        stringStatusText s ++
          (if ip then " (Ran for " ++ toString ad ++ " days)" else "") := by
    intro s hs
    have h : jsIsNaNStatus (JsStatus.str s) = true := by
      show (jsStringToNumber s).isNone = true
      cases hj : jsStringToNumber s with
      | none => rfl
      | some v => rw [hj] at hs; simp at hs
    cases ip <;> simp [formatStatus, h, String.append_assoc]
  have hdef : ∀ s : String, s ≠ "ENABLED" → s ≠ "PAUSED" → s ≠ "REMOVED" →
      s ≠ "DRAFT" → s ≠ "ENDED" → s ≠ "UNKNOWN" → stringStatusText s = s := by
    intro s h1 h2 h3 h4 h5 h6
    simp [stringStatusText, h1, h2, h3, h4, h5, h6]
  have h3 : formatStatus (JsStatus.str "3") ip ad =
      "Paused" ++ (if ip then " (Ran for " ++ toString ad ++ " days)" else "") := by
    rw [hnumstr "3" (by decide),
      show numericStatusText (jsParseInt "3") "3" = "Paused" from by decide]
  exact ⟨hnum, ⟨rfl, rfl, rfl, rfl, rfl⟩, hmisc, hnumstr, hstr,
    ⟨rfl, rfl, rfl, rfl, rfl, rfl⟩, hdef, h3⟩

/-- **C5, witness.** The amended theorem applied at the unmapped numeric
code `7` of a paused campaign that ran for 10 days. -/
theorem c5_formatStatus_table_witness :
    formatStatus (JsStatus.num 7) true 10 =
      numericStatusText (some 7) "7" ++ " (Ran for 10 days)" ∧
    numericStatusText (some 7) "7" = "Unknown (7)" := by
  have h := c5_formatStatus_table true 10
  exact ⟨by simpa using h.1 7,
    h.2.2.1 7 "7" (by decide) (by decide) (by decide) (by decide) (by decide)⟩

/-- **C6.** The end-date label: `Paused on {lastActiveDate}` whenever
`isPaused` (regardless of `endDate`); otherwise `No end date` when
`endDate` is absent (undefined or empty); otherwise `No end date` when
the parsed end-date year exceeds `currentYear + 10`; otherwise the
literal `endDate` (also when the year does not parse, since `NaN >`
anything is false). -/
theorem c6_formatEndDate_cases (ed : Option String) (ip : Bool)
    (lad : String) (cy : Int) :
    (ip = true → formatEndDate ed ip lad cy = "Paused on " ++ lad) ∧
    (ip = false → endDateFalsy ed = true →
      formatEndDate ed ip lad cy = "No end date") ∧
    (∀ s, ip = false → ed = some s → endDateFalsy ed = false →
      (∃ y, endDateYear s = some y ∧ cy + 10 < y) →
      formatEndDate ed ip lad cy = "No end date") ∧
    (∀ s, ip = false → ed = some s → endDateFalsy ed = false →
      (∀ y, endDateYear s = some y → y ≤ cy + 10) →
      formatEndDate ed ip lad cy = s) := by
  refine ⟨?_, ?_, ?_, ?_⟩
  · intro h; simp [formatEndDate, h]
  · intro h1 h2; simp [formatEndDate, h1, h2]
  · rintro s h1 rfl h3 ⟨y, hy, hlt⟩
    simp [formatEndDate, h1, h3, hy, hlt]
  · rintro s h1 rfl h3 hy
    cases hys : endDateYear s with
    | none => simp [formatEndDate, h1, h3, hys]
    | some y =>
        have := hy y hys
        simp [formatEndDate, h1, h3, hys, not_lt.mpr this]

/-- **C6, witness.** The spec scenario: an active campaign with the
far-future sentinel `2037-12-30` at current year 2025 renders
`No end date`; a paused one renders its pause date. -/
theorem c6_formatEndDate_cases_witness :
    formatEndDate (some "2037-12-30") false "2024-01-10" 2025
      = "No end date" ∧
    formatEndDate (some "2037-12-30") true "2024-01-10" 2025
      = "Paused on 2024-01-10" := by
  refine ⟨?_, ?_⟩
  · exact (c6_formatEndDate_cases (some "2037-12-30") false "2024-01-10"
      2025).2.2.1 "2037-12-30" rfl rfl (by decide) ⟨2037, by decide, by decide⟩
  · exact (c6_formatEndDate_cases (some "2037-12-30") true "2024-01-10"
      2025).1 rfl

/-- `Map.set` with a key absent from the map appends at the end. -/
theorem mapSet_new (m : List (Int × Aggregated)) (k : Int) (v : Aggregated)
    (h : k ∉ m.map Prod.fst) : mapSet m k v = m ++ [(k, v)] := by
  have hany : m.any (fun p => p.1 = k) = false := by
    rw [List.any_eq_false]
    intro p hp
    simp only [decide_eq_true_eq]
    intro hk
    exact h (hk ▸ List.mem_map_of_mem Prod.fst hp)
  unfold mapSet
  rw [hany]
  simp

/-- With pairwise-distinct campaign ids none of which is already in the
map, the loop appends one entry per campaign, in batch order. -/
theorem runBatch_eq_append (now : Int) (m : List (Int × Aggregated))
    (batch : List (CampaignRow × Except Unit (List MetricRowRaw)))
    (hnd : (batch.map (fun p => p.1.id)).Nodup)
    (hdis : ∀ p ∈ batch, p.1.id ∉ m.map Prod.fst) :
    runBatch now m batch =
      m ++ batch.map (fun p => (p.1.id, processCampaign now p.1 p.2)) := by
  induction batch generalizing m with
  | nil => simp [runBatch]
  | cons q rest ih =>
      obtain ⟨c, f⟩ := q
      rw [List.map_cons, List.nodup_cons] at hnd
      rw [runBatch,
        mapSet_new m c.id _ (hdis (c, f) (List.mem_cons_self _ _)),
        ih (m ++ [(c.id, processCampaign now c f)]) hnd.2 ?_]
      · simp
      · intro p hp
        rw [List.map_append, List.mem_append]
        rintro (hm | hone)
        · exact hdis p (List.mem_cons_of_mem _ hp) hm
        · simp only [List.map_cons, List.map_nil, List.mem_singleton] at hone
          exact hnd.1 (hone ▸ List.mem_map_of_mem (fun p => p.1.id) hp)

/-- **C7.** When the fetched campaigns have pairwise-distinct ids, one
output record is emitted per campaign (a batch of five with one failing
fetch yields five records — the model is a total function, so no
exception escapes); and each campaign whose metrics fetch errored is
represented by the zero-metrics fallback: all five totals `0`,
`lastActiveDate = startDate`, `activeDays = 1`. -/
theorem c7_fetch_failure_isolated (now cy : Int)
    (batch : List (CampaignRow × Except Unit (List MetricRowRaw)))
    (hnd : (batch.map (fun p => p.1.id)).Nodup) :
    (getCampaignData now cy batch).length = batch.length ∧
    ∀ p ∈ batch, p.2 = Except.error () →
      ∃ rec ∈ getCampaignDataAgg now batch,
        rec.id = p.1.id ∧ rec.totalCost = 0 ∧ rec.totalConversions = 0 ∧
        rec.totalConversionsValue = 0 ∧ rec.totalImpressions = 0 ∧
        rec.totalClicks = 0 ∧ rec.lastActiveDate = p.1.start_date ∧
        rec.activeDays = 1 := by
  have key : getCampaignDataAgg now batch
      = batch.map (fun p => processCampaign now p.1 p.2) := by
    unfold getCampaignDataAgg
    rw [runBatch_eq_append now [] batch hnd (by simp)]
    simp
  constructor
  · unfold getCampaignData
    rw [key]
    simp
  · intro p hp herr
    refine ⟨processCampaign now p.1 p.2, ?_, ?_⟩
    · rw [key]
      exact List.mem_map_of_mem _ hp
    · rw [herr]
      simp [processCampaign]

/-- A five-campaign batch whose second campaign's metrics fetch throws. -/
def batch5 : List (CampaignRow × Except Unit (List MetricRowRaw)) :=
  [(⟨1, "A", "2024-01-01", none, JsStatus.num 2⟩, Except.ok [rowJan01]),
   (⟨2, "B", "2024-01-01", none, JsStatus.num 2⟩, Except.error ()),
   (⟨3, "C", "2024-01-01", none, JsStatus.num 3⟩, Except.ok []),
   (⟨4, "D", "2024-01-01", none, JsStatus.str "PAUSED"⟩, Except.ok [rowJan02]),
   (⟨5, "E", "2024-01-01", none, JsStatus.num 2⟩, Except.ok [])]

/-- **C7, witness.** The theorem applied to the concrete five-campaign
batch with one failing fetch: five output records. -/
theorem c7_fetch_failure_isolated_witness :
    (batch5.map (fun p => p.1.id)).Nodup ∧
    (getCampaignData 0 2025 batch5).length = batch5.length :=
  ⟨by decide, (c7_fetch_failure_isolated 0 2025 batch5 (by decide)).1⟩

/-- **C8.** Each total decomposes as the sum of independently parsed
per-row, per-field contributions, so a field value affects only that
field of that row and every total is a well-defined integer/rational
(never null/NaN); an absent (`undefined`) or unparsable field
contributes `0` for that row only; and when every parsable field value
is nonnegative, all five totals are nonnegative. -/
theorem c8_defensive_parsing (s : String) (l : List MetricRowRaw) :
    ((aggregate s l).totalCost = (l.map rowCost).sum ∧
      (aggregate s l).totalConversions = (l.map rowConversions).sum ∧
      (aggregate s l).totalConversionsValue
        = (l.map rowConversionsValue).sum ∧
      (aggregate s l).totalImpressions = (l.map rowImpressions).sum ∧
      (aggregate s l).totalClicks = (l.map rowClicks).sum) ∧
    (jsIntField none = 0 ∧ jsFloatField none = 0 ∧
      (∀ v : String, jsParseInt v = none → jsIntField (some v) = 0) ∧
      (∀ v : String, jsParseFloat v = none → jsFloatField (some v) = 0)) ∧
    ((∀ r ∈ l,
        (∀ v ∈ r.cost_micros.bind jsParseInt, 0 ≤ v) ∧
        (∀ v ∈ r.conversions.bind jsParseFloat, 0 ≤ v) ∧
        (∀ v ∈ r.conversions_value.bind jsParseFloat, 0 ≤ v) ∧
        (∀ v ∈ r.impressions.bind jsParseInt, 0 ≤ v) ∧
        (∀ v ∈ r.clicks.bind jsParseInt, 0 ≤ v)) →
      0 ≤ (aggregate s l).totalCost ∧
      0 ≤ (aggregate s l).totalConversions ∧
      0 ≤ (aggregate s l).totalConversionsValue ∧
      0 ≤ (aggregate s l).totalImpressions ∧
      0 ≤ (aggregate s l).totalClicks) := by
  have hI : ∀ (o : Option String),
      (∀ v ∈ o.bind jsParseInt, 0 ≤ v) → 0 ≤ jsIntField o := by
    intro o ho
    unfold jsIntField
    cases hb : o.bind jsParseInt with
    | none => simp
    | some v => simpa using ho v (by simp [hb])
  have hQ : ∀ (o : Option String),
      (∀ v ∈ o.bind jsParseFloat, (0 : ℚ) ≤ v) → 0 ≤ jsFloatField o := by
    intro o ho
    unfold jsFloatField
    cases hb : o.bind jsParseFloat with
    | none => simp
    | some v => simpa using ho v (by simp [hb])
  refine ⟨⟨aggregate_totalCost s l, aggregate_totalConversions s l,
      aggregate_totalConversionsValue s l, aggregate_totalImpressions s l,
      aggregate_totalClicks s l⟩,
    ⟨rfl, rfl, ?_, ?_⟩, ?_⟩
  · intro v h
    simp [jsIntField, h]
  · intro v h
    simp [jsFloatField, h]
  · intro h
    refine ⟨?_, ?_, ?_, ?_, ?_⟩
    · rw [aggregate_totalCost]
      refine List.sum_nonneg ?_
      intro x hx
      obtain ⟨r, hr, rfl⟩ := List.mem_map.mp hx
      exact hI _ (h r hr).1
    · rw [aggregate_totalConversions]
      refine List.sum_nonneg ?_
      intro x hx
      obtain ⟨r, hr, rfl⟩ := List.mem_map.mp hx
      exact hQ _ (h r hr).2.1
    · rw [aggregate_totalConversionsValue]
      refine List.sum_nonneg ?_
      intro x hx
      obtain ⟨r, hr, rfl⟩ := List.mem_map.mp hx
      exact hQ _ (h r hr).2.2.1
    · rw [aggregate_totalImpressions]
      refine List.sum_nonneg ?_
      intro x hx
      obtain ⟨r, hr, rfl⟩ := List.mem_map.mp hx
      exact hI _ (h r hr).2.2.2.1
    · rw [aggregate_totalClicks]
      refine List.sum_nonneg ?_
      intro x hx
      obtain ⟨r, hr, rfl⟩ := List.mem_map.mp hx
      exact hI _ (h r hr).2.2.2.2

/-- A row with an absent cost, an unparsable conversions value and
parsable nonnegative impressions/clicks. -/
def rowGarbage : MetricRowRaw :=
  ⟨"2024-01-07", none, some "abc", none, some "7", some "2"⟩

/-- **C8, witness.** The theorem applied to a sample containing a fully
parsable row and a row with absent/garbage fields. -/
theorem c8_defensive_parsing_witness :
    (∀ r ∈ [rowJan01, rowGarbage],
      (∀ v ∈ r.cost_micros.bind jsParseInt, 0 ≤ v) ∧
      (∀ v ∈ r.conversions.bind jsParseFloat, 0 ≤ v) ∧
      (∀ v ∈ r.conversions_value.bind jsParseFloat, 0 ≤ v) ∧
      (∀ v ∈ r.impressions.bind jsParseInt, 0 ≤ v) ∧
      (∀ v ∈ r.clicks.bind jsParseInt, 0 ≤ v)) ∧
    0 ≤ (aggregate "2024-01-01" [rowJan01, rowGarbage]).totalCost ∧
    (aggregate "2024-01-01" [rowJan01, rowGarbage]).totalImpressions
      = ([rowJan01, rowGarbage].map rowImpressions).sum :=
  ⟨by decide,
    ((c8_defensive_parsing "2024-01-01" [rowJan01, rowGarbage]).2.2
      (by decide)).1,
    (c8_defensive_parsing "2024-01-01" [rowJan01, rowGarbage]).1.2.2.2.1⟩

/-- A daily row with 200 impressions and 10 clicks but zero cost. -/
def zeroCostRow : MetricRowRaw :=
  ⟨"2024-01-05", some "0", none, none, some "200", some "10"⟩

/-- An active campaign row used in concrete pipeline runs. -/
def campaignA : CampaignRow := ⟨1, "A", "2024-01-01", none, JsStatus.num 2⟩

/-- A one-campaign batch whose only daily row has clicks but zero cost. -/
def zeroCostBatch : List (CampaignRow × Except Unit (List MetricRowRaw)) :=
  [(campaignA, Except.ok [zeroCostRow])]

/-- **C3, counterexample.** The pipeline produces a record with
`totalClicks = 10` (nonzero) and `totalCost = 0`, whose `averageCpc`
number is `0` (rendered `0.00`) — so `averageCpc == 0` does not imply
`totalClicks == 0`. -/
theorem c3_cpc_zero_with_nonzero_clicks :
    ((getCampaignDataAgg 0 zeroCostBatch).map
      (fun c => (c.totalCost, c.totalClicks)) = [(0, 10)]) ∧
    ((getCampaignDataAgg 0 zeroCostBatch).map
      (fun c => averageCpcValue c) = [0]) ∧
    (10 : Int) ≠ 0 := by
  have hagg : getCampaignDataAgg 0 zeroCostBatch
      = [processCampaign 0 campaignA (Except.ok [zeroCostRow])] := rfl
  refine ⟨by decide, ?_, by decide⟩
  rw [hagg, List.map_cons, List.map_nil]
  have h1 : (processCampaign 0 campaignA (Except.ok [zeroCostRow])).totalCost
      = 0 := by decide
  have h2 : (processCampaign 0 campaignA (Except.ok [zeroCostRow])).totalClicks
      = 10 := by decide
  simp [averageCpcValue, costInCurrency, h1, h2]

/-- **C3, amended.** With the KPI numbers as the code computes them
before rendering: `ctr = 0` iff `totalImpressions ≤ 0` or
`totalClicks = 0`, and `averageCpc = 0` iff `totalClicks ≤ 0` or
`totalCost = 0` (the guards `> 0` yield `0`; with a positive
denominator the quotient vanishes exactly when the numerator does). -/
theorem c3_kpi_zero_iff (c : Aggregated) :
    (ctrValue c = 0 ↔ (¬ 0 < c.totalImpressions ∨ c.totalClicks = 0)) ∧
    (averageCpcValue c = 0 ↔ (¬ 0 < c.totalClicks ∨ c.totalCost = 0)) := by
  constructor
  · unfold ctrValue
    by_cases h : 0 < c.totalImpressions
    · rw [if_pos h]
      have himp : (c.totalImpressions : ℚ) ≠ 0 :=
        Int.cast_ne_zero.mpr (ne_of_gt h)
      simp [h, div_eq_zero_iff, himp, mul_eq_zero, Int.cast_eq_zero]
    · rw [if_neg h]
      simp [h]
  · unfold averageCpcValue costInCurrency
    by_cases h : 0 < c.totalClicks
    · rw [if_pos h]
      have hck : (c.totalClicks : ℚ) ≠ 0 :=
        Int.cast_ne_zero.mpr (ne_of_gt h)
      simp [h, div_eq_zero_iff, hck, Int.cast_eq_zero]
    · rw [if_neg h]
      simp [h]

/-! ## Decimal-place counting for rendered values -/

/-- Number of characters after the last `'.'` of a character list
(`none` when there is no `'.'` at all). -/
def decCountList (l : List Char) : Option Nat :=
  if '.' ∈ l then some ((l.reverse.takeWhile (fun c => c ≠ '.')).length)
  else none

/-- Number of digits after the last decimal point of a rendered string. -/
def decCount (s : String) : Option Nat := decCountList s.toList

theorem decCountList_append (a : List Char) (d1 d2 : Char)
    (h1 : d1 ≠ '.') (h2 : d2 ≠ '.') :
    decCountList (a ++ '.' :: [d1, d2]) = some 2 := by
  unfold decCountList
  rw [if_pos (List.mem_append_right a (List.mem_cons_self _ _))]
  congr 1
  rw [List.reverse_append,
    show ('.' :: [d1, d2]).reverse = [d2, d1, '.'] from rfl]
  simp [List.takeWhile_cons, h1, h2]

/-- Every `toFixed(2)` rendering has exactly two digits after the
decimal point. -/
theorem toFixed2_decCount (x : ℚ) : decCount (toFixed2 x) = some 2 := by
  have hd : ∀ m : Nat, m < 10 → Nat.digitChar m ≠ '.' := by decide
  unfold toFixed2 decCount
  have hshape :
      ((if x < 0 then "-" else "") ++
          toString ((Int.floor (|x| * 100 + 1 / 2)).toNat / 100) ++ "." ++
          pad2 ((Int.floor (|x| * 100 + 1 / 2)).toNat % 100)).toList =
        ((if x < 0 then "-" else "").toList ++
            (toString ((Int.floor (|x| * 100 + 1 / 2)).toNat / 100)).toList) ++
          '.' :: [Nat.digitChar ((Int.floor (|x| * 100 + 1 / 2)).toNat % 100 / 10 % 10),
            Nat.digitChar ((Int.floor (|x| * 100 + 1 / 2)).toNat % 100 % 10)] := by
    simp [String.toList, String.data_append, pad2, List.append_assoc]
  rw [hshape]
  exact decCountList_append _ _ _ (hd _ (by omega)) (hd _ (by omega))

/-- **C9, counterexample.** A produced record with zero impressions has
`ctr = "0%"`, whose numeric part `"0"` carries no decimal point at all —
so the numeric part of `ctr` is not always rendered with two decimal
places. -/
theorem c9_ctr_zero_percent_no_decimals :
    (getCampaignData 0 2025
      [(⟨2, "B", "2024-01-01", none, JsStatus.num 2⟩, Except.error ())]).map
        (fun f => f.ctr) = ["0%"] ∧
    decCount "0" ≠ some 2 := by
  exact ⟨by decide, by decide⟩

/-- **C9, amended.** `totalCost`, `dailyAvgCost`, `totalConversions`,
`totalConversionsValue`, `averageCpc` and `costPerDay` are always
rendered with exactly two decimal places; `ctr` is a two-decimal number
followed by `%` when `totalImpressions > 0`, but the literal `"0%"`
(numeric part without decimals) when `totalImpressions == 0`. -/
theorem c9_two_decimal_rendering (cy : Int) (c : Aggregated) :
    decCount (formatCampaign cy c).totalCost = some 2 ∧
    decCount (formatCampaign cy c).dailyAvgCost = some 2 ∧
    decCount (formatCampaign cy c).totalConversions = some 2 ∧
    decCount (formatCampaign cy c).totalConversionsValue = some 2 ∧
    decCount (formatCampaign cy c).averageCpc = some 2 ∧
    decCount (formatCampaign cy c).costPerDay = some 2 ∧
    (0 < c.totalImpressions →
      (formatCampaign cy c).ctr = toFixed2 (ctrValue c) ++ "%" ∧
      decCount (toFixed2 (ctrValue c)) = some 2) ∧
    (¬ 0 < c.totalImpressions → (formatCampaign cy c).ctr = "0%") := by
  refine ⟨toFixed2_decCount _, toFixed2_decCount _, toFixed2_decCount _,
    toFixed2_decCount _, toFixed2_decCount _, toFixed2_decCount _, ?_, ?_⟩
  · intro h
    exact ⟨by simp [formatCampaign, h], toFixed2_decCount _⟩
  · intro h
    simp [formatCampaign, h]

/-- An aggregated campaign with activity (200 impressions, 10 clicks). -/
def sampleActiveAgg : Aggregated :=
  ⟨1, "A", "2024-01-01", none, JsStatus.num 2, false, "2024-01-05", 650,
    5000000, 0, 0, 200, 10⟩

/-- An aggregated campaign with zero impressions. -/
def sampleZeroAgg : Aggregated :=
  ⟨2, "B", "2024-01-01", none, JsStatus.num 2, false, "2024-01-01", 1,
    0, 0, 0, 0, 0⟩

/-- **C9, witness.** The amended theorem applied to a record with
impressions (two-decimal `ctr`) and one without (`ctr = "0%"`). -/
theorem c9_two_decimal_rendering_witness :
    (0 : Int) < sampleActiveAgg.totalImpressions ∧
    (formatCampaign 2025 sampleActiveAgg).ctr
      = toFixed2 (ctrValue sampleActiveAgg) ++ "%" ∧
    (formatCampaign 2025 sampleZeroAgg).ctr = "0%" :=
  ⟨by decide,
    ((c9_two_decimal_rendering 2025 sampleActiveAgg).2.2.2.2.2.2.1
      (by decide)).1,
    (c9_two_decimal_rendering 2025 sampleZeroAgg).2.2.2.2.2.2.2 (by decide)⟩

/-- **C10.** In every output record, `costPerDay` equals `dailyAvgCost`:
both are the `toFixed(2)` rendering of
`(totalCost / 1,000,000) / activeDays` when `activeDays > 0` and of `0`
otherwise. -/
theorem c10_costPerDay_eq_dailyAvgCost (cy : Int) (c : Aggregated) :
    (formatCampaign cy c).costPerDay = (formatCampaign cy c).dailyAvgCost ∧
    (formatCampaign cy c).dailyAvgCost
      = toFixed2 (if 0 < c.activeDays
          then ((c.totalCost : ℚ) / 1000000) / (c.activeDays : ℚ) else 0) :=
  ⟨rfl, rfl⟩

end GadsCron
